import Mathlib

/-!
Verification of the UltraMCP Tauri bridge (`src/integrations/claudia/src-tauri/src/ultramcp.rs`).

The core of the source is `UltraMCPExecutor`, an asynchronous subprocess
executor with two operations:

* `execute_command` (run-to-completion): spawn `make <command> <args...>` in the
  fixed `base_path` directory with piped stdout/stderr, wait for it, and return
  stdout decoded lossily on exit status zero, or stderr decoded lossily as the
  error on non-zero exit.
* `execute_streaming_command`: same spawn, then read stdout line by line,
  passing each line to a callback, then wait; success yields the fixed string
  "Command completed successfully", failure yields stderr text.

The external process is not part of the source, so the embedding is
parametrised by an environment: a function from the spawn specification the
executor builds to the behaviour the spawned process exhibits (spawn failure,
wait failure, or completion with an exit status and captured stdout/stderr
bytes).  The executor operations are then pure functions of that environment,
translated line by line from the Rust source.  The streaming operation is
modelled as the trace of observable events it produces (callback invocations
followed by the single terminal result), so that ordering claims can be stated.
-/

/-! ## UTF-8 lossy decoding (model of Rust `String::from_utf8_lossy`) -/

/-- The U+FFFD replacement character emitted by `String::from_utf8_lossy`
for each maximal invalid subsequence. -/
def replacement_char : Char := Char.ofNat 0xFFFD

/-- Whether a byte is a UTF-8 continuation byte (`0x80..=0xBF`),
as in Rust `core::str::validations`. -/
def utf8_is_cont_byte (b : Nat) : Bool := decide (0x80 ≤ b ∧ b ≤ 0xBF)

/-- Whether `c` is a valid second byte of a three-byte UTF-8 sequence whose
lead byte is `b`, following the ranges checked by Rust
`core::str::validations::run_utf8_validation` (which exclude overlong
encodings and surrogates). -/
def utf8_valid_second_of_three (b c : Nat) : Bool :=
  decide ((b = 0xE0 ∧ 0xA0 ≤ c ∧ c ≤ 0xBF) ∨
          (0xE1 ≤ b ∧ b ≤ 0xEC ∧ 0x80 ≤ c ∧ c ≤ 0xBF) ∨
          (b = 0xED ∧ 0x80 ≤ c ∧ c ≤ 0x9F) ∨
          (0xEE ≤ b ∧ b ≤ 0xEF ∧ 0x80 ≤ c ∧ c ≤ 0xBF))

/-- Whether `c` is a valid second byte of a four-byte UTF-8 sequence whose
lead byte is `b`, following the ranges checked by Rust
`core::str::validations::run_utf8_validation` (which exclude overlong
encodings and code points above U+10FFFF). -/
def utf8_valid_second_of_four (b c : Nat) : Bool :=
  decide ((b = 0xF0 ∧ 0x90 ≤ c ∧ c ≤ 0xBF) ∨
          (0xF1 ≤ b ∧ b ≤ 0xF3 ∧ 0x80 ≤ c ∧ c ≤ 0xBF) ∨
          (b = 0xF4 ∧ 0x80 ≤ c ∧ c ≤ 0x8F))

/-- Decode a byte sequence to characters the way Rust
`String::from_utf8_lossy` does: valid UTF-8 sequences decode to their scalar
value, and each maximal invalid subsequence (an invalid lead byte, a
truncated sequence cut off by a non-continuation byte, or an incomplete
sequence at end of input) becomes a single U+FFFD replacement character. -/
def utf8_lossy_decode : List Nat → List Char
  | [] => []
  | b :: rest =>
    if b < 0x80 then
      Char.ofNat b :: utf8_lossy_decode rest
    else if 0xC2 ≤ b ∧ b ≤ 0xDF then
      match rest with
      | [] => [replacement_char]
      | c :: rest2 =>
        if utf8_is_cont_byte c then
          Char.ofNat ((b - 0xC0) * 0x40 + (c - 0x80)) :: utf8_lossy_decode rest2
        else
          replacement_char :: utf8_lossy_decode (c :: rest2)
    else if 0xE0 ≤ b ∧ b ≤ 0xEF then
      match rest with
      | [] => [replacement_char]
      | c :: rest2 =>
        if utf8_valid_second_of_three b c then
          match rest2 with
          | [] => [replacement_char]
          | d :: rest3 =>
            if utf8_is_cont_byte d then
              Char.ofNat ((b - 0xE0) * 0x1000 + (c - 0x80) * 0x40 + (d - 0x80)) ::
                utf8_lossy_decode rest3
            else
              replacement_char :: utf8_lossy_decode (d :: rest3)
        else
          replacement_char :: utf8_lossy_decode (c :: rest2)
    else if 0xF0 ≤ b ∧ b ≤ 0xF4 then
      match rest with
      | [] => [replacement_char]
      | c :: rest2 =>
        if utf8_valid_second_of_four b c then
          match rest2 with
          | [] => [replacement_char]
          | d :: rest3 =>
            if utf8_is_cont_byte d then
              match rest3 with
              | [] => [replacement_char]
              | e :: rest4 =>
                if utf8_is_cont_byte e then
                  Char.ofNat ((b - 0xF0) * 0x40000 + (c - 0x80) * 0x1000 +
                      (d - 0x80) * 0x40 + (e - 0x80)) :: utf8_lossy_decode rest4
                else
                  replacement_char :: utf8_lossy_decode (e :: rest4)
            else
              replacement_char :: utf8_lossy_decode (d :: rest3)
        else
          replacement_char :: utf8_lossy_decode (c :: rest2)
    else
      replacement_char :: utf8_lossy_decode rest

/-- Model of Rust `String::from_utf8_lossy(bytes).to_string()`. -/
def from_utf8_lossy (bytes : List Nat) : String :=
  String.mk (utf8_lossy_decode bytes)

/-! ## Process model

The external `make` process is opaque to the source; the embedding makes its
behaviour an explicit parameter. -/

/-- Model of Rust `std::process::Stdio` configurations used by the source. -/
inductive Stdio where
  | piped
  | inherited
  | null
deriving DecidableEq, Repr

/-- The spawn configuration an executor operation hands to the operating
system: built by `AsyncCommand::new("make").arg(command).args(args)
.current_dir(&self.base_path).stdout(Stdio::piped()).stderr(Stdio::piped())`. -/
structure SpawnSpec where
  program : String
  args : List String
  current_dir : String
  stdout_cfg : Stdio
  stderr_cfg : Stdio
deriving DecidableEq, Repr

/-- Model of Rust `std::process::ExitStatus` (a raw exit code). -/
structure ExitStatus where
  code : Int
deriving DecidableEq, Repr

/-- Model of Rust `ExitStatus::success()`: exit code zero. -/
def ExitStatus.success (s : ExitStatus) : Bool := s.code == 0

/-- Model of Rust `std::process::Output` as returned by `wait_with_output`:
exit status plus captured stdout and stderr bytes. -/
structure ProcessOutput where
  status : ExitStatus
  stdout : List Nat
  stderr : List Nat
deriving DecidableEq, Repr

/-- Behaviour of one spawned process as observed by `execute_command`:
the spawn itself can fail (with an I/O error message), the wait can fail,
or the process runs to completion with an output. -/
inductive ProcBehavior where
  | spawnFailure (err : String)
  | waitFailure (err : String)
  | completed (output : ProcessOutput)
deriving DecidableEq, Repr

/-- One result of a `lines.next_line()` call on the child's piped stdout:
either a complete line (newline stripped) or a read error.  The list of
read events is finite because the stream ends (EOF) after them. -/
inductive ReadEvent where
  | line (s : String)
  | readError
deriving DecidableEq, Repr

/-- Behaviour of one spawned process as observed by
`execute_streaming_command`: spawn outcome, the successive stdout line-read
results until EOF, and the wait outcome. -/
structure StreamBehavior where
  spawn_err : Option String
  stdout_reads : List ReadEvent
  wait : Except String ProcessOutput

/-! ## The executor -/

/-- Rust `pub struct UltraMCPExecutor { pub base_path: String }`
(ultramcp.rs lines 148-150). -/
structure UltraMCPExecutor where
  base_path : String

/-- Rust `UltraMCPExecutor::new()`: base path fixed to "/root/ultramcp"
(ultramcp.rs lines 153-157). -/
def UltraMCPExecutor.new : UltraMCPExecutor :=
  { base_path := "/root/ultramcp" }

/-- Rust `init_ultramcp_commands()` (ultramcp.rs lines 593-595). -/
def init_ultramcp_commands : UltraMCPExecutor :=
  UltraMCPExecutor.new

/-- The spawn configuration built identically by both executor operations:
program "make", first argument the logical command, then the argument list,
working directory `base_path`, stdout and stderr piped. -/
def UltraMCPExecutor.spawn_spec (self : UltraMCPExecutor) (command : String)
    (args : List String) : SpawnSpec :=
  { program := "make"
    args := command :: args
    current_dir := self.base_path
    stdout_cfg := Stdio.piped
    stderr_cfg := Stdio.piped }

/-- Rust `UltraMCPExecutor::execute_command` (ultramcp.rs lines 159-179),
as a pure function of the environment `env` (the behaviour of the process
spawned with the given spawn specification):

* spawn failure `e` yields `Err("Failed to spawn command: " ++ e)`;
* wait failure `e` yields `Err("Failed to execute command: " ++ e)`;
* completion with `result.status.success()` yields
  `Ok(String::from_utf8_lossy(&result.stdout))`, otherwise
  `Err(String::from_utf8_lossy(&result.stderr))`. -/
def UltraMCPExecutor.execute_command (self : UltraMCPExecutor)
    (env : SpawnSpec → ProcBehavior) (command : String) (args : List String) :
    Except String String :=
  match env (self.spawn_spec command args) with
  | ProcBehavior.spawnFailure e => Except.error ("Failed to spawn command: " ++ e)
  | ProcBehavior.waitFailure e => Except.error ("Failed to execute command: " ++ e)
  | ProcBehavior.completed result =>
    if result.status.success then
      Except.ok (from_utf8_lossy result.stdout)
    else
      Except.error (from_utf8_lossy result.stderr)

/-- The lines actually handed to the streaming callback by the loop
`while let Some(line) = lines.next_line().await.unwrap_or(None)`:
successive successful line reads, stopping at the first read error
(`unwrap_or(None)` turns a read error into `None`, ending the loop)
or at end of stream. -/
def delivered_lines : List ReadEvent → List String
  | [] => []
  | ReadEvent.line s :: rest => s :: delivered_lines rest
  | ReadEvent.readError :: _ => []

/-- An observable event of one streaming invocation: a callback invocation
with one line, or the terminal result returned to the caller. -/
inductive Event where
  | lineCb (line : String)
  | terminal (result : Except String String)
deriving Repr

/-- The tail of `execute_streaming_command` after the read loop
(ultramcp.rs lines 203-213): wait for the process;
a wait failure `e` yields `Err("Failed to complete streaming command: " ++ e)`;
exit success yields the fixed `Ok("Command completed successfully")`;
non-zero exit yields `Err(String::from_utf8_lossy(&output.stderr))`. -/
def stream_wait_result (wait : Except String ProcessOutput) : Except String String :=
  match wait with
  | Except.error e => Except.error ("Failed to complete streaming command: " ++ e)
  | Except.ok output =>
    if output.status.success then
      Except.ok "Command completed successfully"
    else
      Except.error (from_utf8_lossy output.stderr)

/-- Rust `UltraMCPExecutor::execute_streaming_command` (ultramcp.rs lines
181-213), as the trace of observable events of one invocation:

* spawn failure `e` immediately produces the single terminal event
  `Err("Failed to spawn streaming command: " ++ e)` — no callback runs;
* otherwise each line delivered by the stdout read loop is passed to the
  callback in order, and after the loop ends the process is awaited and the
  terminal result `stream_wait_result` is produced. -/
def UltraMCPExecutor.execute_streaming_command (self : UltraMCPExecutor)
    (env : SpawnSpec → StreamBehavior) (command : String) (args : List String) :
    List Event :=
  match (env (self.spawn_spec command args)).spawn_err with
  | some e =>
    [Event.terminal (Except.error ("Failed to spawn streaming command: " ++ e))]
  | none =>
    (delivered_lines (env (self.spawn_spec command args)).stdout_reads).map Event.lineCb ++
      [Event.terminal (stream_wait_result (env (self.spawn_spec command args)).wait)]

/-! ## Newline splitting (model of `tokio::io::Lines` over the piped stdout)

`BufReader::lines` yields each segment of the stream up to and excluding a
newline byte; a line that ended in a newline also has a trailing carriage
return stripped; a final segment at end of input without a newline is yielded
as-is (no carriage-return stripping). -/

/-- Strip one trailing carriage return from a reversed line accumulator,
as `tokio::io::util::lines` does after popping the newline. -/
def strip_cr_rev (acc : List Char) : List Char :=
  match acc with
  | '\r' :: t => t
  | _ => acc

/-- Accumulator-based newline splitter; `acc` holds the current
(unterminated) line in reverse. -/
def tokio_lines_aux : List Char → List Char → List String
  | [], [] => []
  | [], acc => [String.mk acc.reverse]
  | c :: rest, acc =>
    if c = '\n' then
      String.mk (strip_cr_rev acc).reverse :: tokio_lines_aux rest []
    else
      tokio_lines_aux rest (c :: acc)

/-- The sequence of lines `tokio::io::Lines` produces from a stdout stream
whose whole content is the text `s`. -/
def tokio_lines (s : String) : List String :=
  tokio_lines_aux s.data []

/-! ## Canned data structures (ultramcp.rs lines 20-142)

Rust `f64` fields only ever hold literal constants in this source — no
floating-point arithmetic is performed — so they are embedded as `ℚ`,
which represents every literal in the source exactly.  `u32` fields are
embedded as `Nat`; no arithmetic is performed on them either. -/

/-- Rust `struct ModelPerformance` (ultramcp.rs lines 81-89). -/
structure ModelPerformance where
  avg_response_time : ℚ
  tokens_per_second : ℚ
  total_requests : Nat
  avg_confidence : ℚ
  uptime : ℚ
  last_used : String
deriving DecidableEq, Repr

/-- Rust `struct LocalModel` (ultramcp.rs lines 64-79). -/
structure LocalModel where
  id : String
  name : String
  version : String
  size : String
  ram_usage : String
  context_length : Nat
  specialization : String
  role : String
  status : String
  performance : ModelPerformance
  capabilities : List String
  cost_per_token : ℚ
  privacy_score : ℚ
deriving DecidableEq, Repr

/-- Rust `struct SystemMetrics` (ultramcp.rs lines 91-102). -/
structure SystemMetrics where
  total_models : Nat
  active_models : Nat
  total_storage : String
  total_ram_usage : String
  combined_tokens_per_second : ℚ
  total_requests : Nat
  avg_confidence : ℚ
  cost_savings : ℚ
  privacy_score : ℚ
deriving DecidableEq, Repr

/-- Rust `struct CostBreakdown` (ultramcp.rs lines 46-53). -/
structure CostBreakdown where
  «local» : ℚ
  api : ℚ
  total : ℚ
  savings : ℚ
  savings_percentage : ℚ
deriving DecidableEq, Repr

/-- Rust `struct ModelCost` (ultramcp.rs lines 112-121). -/
structure ModelCost where
  model_name : String
  model_type : String
  requests : Nat
  tokens : Nat
  cost : ℚ
  avg_cost_per_request : ℚ
  percentage : ℚ
deriving DecidableEq, Repr

/-- Rust `struct SavingsCalculation` (ultramcp.rs lines 123-131). -/
structure SavingsCalculation where
  total_api_equivalent : ℚ
  actual_cost : ℚ
  savings : ℚ
  savings_percentage : ℚ
  local_request_count : Nat
  api_request_count : Nat
deriving DecidableEq, Repr

/-- Rust `struct OptimizationRecommendation` (ultramcp.rs lines 133-142). -/
structure OptimizationRecommendation where
  id : String
  recommendation_type : String
  title : String
  description : String
  potential_savings : ℚ
  impact : String
  effort : String
deriving DecidableEq, Repr

/-- Rust `struct CostAnalytics` (ultramcp.rs lines 104-110). -/
structure CostAnalytics where
  current_costs : CostBreakdown
  model_costs : List ModelCost
  savings_calculation : SavingsCalculation
  optimization_recommendations : List OptimizationRecommendation
deriving DecidableEq, Repr

/-! ## Helper functions (ultramcp.rs lines 389-587)

These "parsers" ignore their input entirely and return hardcoded sample
data; the embedding reproduces the hardcoded values verbatim. -/

/-- Rust `parse_local_models_output` (ultramcp.rs lines 389-452): ignores
`output` and returns the two hardcoded sample models. -/
def parse_local_models_output (output : String) : Except String (List LocalModel) :=
  Except.ok
    [ { id := "qwen-25-14b"
        name := "Qwen 2.5 14B"
        version := "14b"
        size := "9.0 GB"
        ram_usage := "~12 GB"
        context_length := 32000
        specialization := "Complex reasoning, strategic analysis"
        role := "Strategic Analyst"
        status := "active"
        performance :=
          { avg_response_time := 32.5
            tokens_per_second := 15.2
            total_requests := 147
            avg_confidence := 0.92
            uptime := 98.5
            last_used := "2024-01-15T10:30:00Z" }
        capabilities :=
          ["Strategic Planning", "Complex Analysis", "Research", "Decision Making"]
        cost_per_token := 0.0
        privacy_score := 100.0 },
      { id := "llama-31-8b"
        name := "Llama 3.1 8B"
        version := "8b"
        size := "4.9 GB"
        ram_usage := "~7 GB"
        context_length := 128000
        specialization := "High-quality general analysis"
        role := "Balanced Reasoner"
        status := "active"
        performance :=
          { avg_response_time := 17.5
            tokens_per_second := 28.4
            total_requests := 203
            avg_confidence := 0.88
            uptime := 99.2
            last_used := "2024-01-15T10:28:00Z" }
        capabilities :=
          ["General Analysis", "Writing", "Reasoning", "Creative Tasks"]
        cost_per_token := 0.0
        privacy_score := 100.0 } ]

/-- Rust `parse_system_metrics` (ultramcp.rs lines 454-469): ignores
`output` and returns hardcoded metrics. -/
def parse_system_metrics (output : String) : Except String SystemMetrics :=
  Except.ok
    { total_models := 5
      active_models := 4
      total_storage := "26.5 GB"
      total_ram_usage := "38.0 GB"
      combined_tokens_per_second := 120.8
      total_requests := 907
      avg_confidence := 0.896
      cost_savings := 1247.50
      privacy_score := 100.0 }

/-- Rust `generate_cost_analytics` (ultramcp.rs lines 524-575): ignores
`time_range` and returns hardcoded analytics. -/
def generate_cost_analytics (time_range : String) : Except String CostAnalytics :=
  Except.ok
    { current_costs :=
        { «local» := 0.0
          api := 0.615
          total := 0.615
          savings := 17.835
          savings_percentage := 96.7 }
      model_costs :=
        [ { model_name := "Qwen 2.5 14B"
            model_type := "local"
            requests := 147
            tokens := 58800
            cost := 0.0
            avg_cost_per_request := 0.0
            percentage := 23.5 },
          { model_name := "GPT-4"
            model_type := "api"
            requests := 23
            tokens := 15600
            cost := 0.468
            avg_cost_per_request := 0.0203
            percentage := 3.7 } ]
      savings_calculation :=
        { total_api_equivalent := 18.45
          actual_cost := 0.615
          savings := 17.835
          savings_percentage := 96.7
          local_request_count := 662
          api_request_count := 38 }
      optimization_recommendations :=
        [ { id := "1"
            recommendation_type := "cost_reduction"
            title := "Increase Local Model Usage"
            description := "Route 90% of simple queries to local models instead of API models"
            potential_savings := 1200.0
            impact := "high"
            effort := "low" } ] }

/-- Rust `parse_health_output` (ultramcp.rs lines 577-587): ignores
`output` and returns a fixed health map; the `HashMap<String, String>` is
embedded as the association list of its five inserted entries, in
insertion order. -/
def parse_health_output (output : String) : Except String (List (String × String)) :=
  Except.ok
    [ ("overall", "healthy"),
      ("local_models", "5 active"),
      ("ollama_service", "running"),
      ("disk_space", "sufficient"),
      ("memory_usage", "normal") ]

/-- Rust `optimize_costs` Tauri command (ultramcp.rs lines 360-383).  The
first component is the returned result: a fixed acknowledgement string for
each of the three known optimization types, the error
"Unknown optimization type" for anything else.  The second component is
the sequence of executor spawn invocations the handler body performs; it is
empty because the body matches on the string and never calls the executor
it receives. -/
def optimize_costs (optimization_type : String) :
    Except String String × List SpawnSpec :=
  (match optimization_type with
   | "prefer_local" => Except.ok "Local model preference enabled"
   | "batch_requests" => Except.ok "Request batching enabled"
   | "cache_results" => Except.ok "Result caching enabled"
   | _ => Except.error "Unknown optimization type",
   [])

/-! ## Shared lemmas -/

/-- An error-free read stream delivers exactly its lines. -/
theorem delivered_lines_map_line (l : List String) :
    delivered_lines (l.map ReadEvent.line) = l := by
  induction l with
  | nil => rfl
  | cons h t ih => simp [delivered_lines, ih]

/-- A read stream delivers exactly the successful lines before its first
read error. -/
theorem delivered_lines_before_error (pre : List String) (suf : List ReadEvent) :
    delivered_lines (pre.map ReadEvent.line ++ ReadEvent.readError :: suf) = pre := by
  induction pre with
  | nil => rfl
  | cons h t ih => simp [delivered_lines, ih]

/-- Unfolding of `execute_command` once the process behaviour is known to be
a completed run. -/
theorem execute_command_completed (env : SpawnSpec → ProcBehavior)
    (self : UltraMCPExecutor) (command : String) (args : List String)
    (out : ProcessOutput)
    (h : env (self.spawn_spec command args) = ProcBehavior.completed out) :
    self.execute_command env command args
      = if out.status.success then Except.ok (from_utf8_lossy out.stdout)
        else Except.error (from_utf8_lossy out.stderr) := by
  unfold UltraMCPExecutor.execute_command
  rw [h]

/-- Unfolding of `execute_streaming_command` once the spawn is known to have
succeeded. -/
theorem execute_streaming_command_spawned (env : SpawnSpec → StreamBehavior)
    (self : UltraMCPExecutor) (command : String) (args : List String)
    (hspawn : (env (self.spawn_spec command args)).spawn_err = none) :
    self.execute_streaming_command env command args
      = (delivered_lines (env (self.spawn_spec command args)).stdout_reads).map
          Event.lineCb
        ++ [Event.terminal
              (stream_wait_result (env (self.spawn_spec command args)).wait)] := by
  unfold UltraMCPExecutor.execute_streaming_command
  rw [hspawn]

/-! ## Claim theorems -/

/-- Claim C1: for every run-to-completion invocation whose process runs to
completion, a zero exit status yields success carrying the captured stdout
bytes decoded lossily (invalid sequences replaced by U+FFFD), and a non-zero
exit status yields a failure carrying the captured stderr bytes decoded the
same way. -/
theorem execute_command_result_by_exit_status (env : SpawnSpec → ProcBehavior)
    (self : UltraMCPExecutor) (command : String) (args : List String)
    (out : ProcessOutput)
    (h : env (self.spawn_spec command args) = ProcBehavior.completed out) :
    (out.status.code = 0 →
      self.execute_command env command args
        = Except.ok (from_utf8_lossy out.stdout)) ∧
    (out.status.code ≠ 0 →
      self.execute_command env command args
        = Except.error (from_utf8_lossy out.stderr)) := by
  rw [execute_command_completed env self command args out h]
  constructor
  · intro hz
    simp [ExitStatus.success, hz]
  · intro hnz
    simp [ExitStatus.success, hnz]

/-- Witness for C1: an invocation of `make local-chat TEXT=hello` whose
process writes the bytes of "hello\n" to stdout and exits 0 succeeds with
exactly "hello\n"; one that writes "oops" to stderr and exits 2 fails with
exactly "oops". -/
theorem execute_command_result_by_exit_status_witness :
    UltraMCPExecutor.new.execute_command
        (fun _ => ProcBehavior.completed
          ⟨⟨0⟩, [104, 101, 108, 108, 111, 10], []⟩)
        "local-chat" ["TEXT=hello"]
      = Except.ok "hello\n" ∧
    UltraMCPExecutor.new.execute_command
        (fun _ => ProcBehavior.completed
          ⟨⟨2⟩, [], [111, 111, 112, 115]⟩)
        "local-chat" ["TEXT=hello"]
      = Except.error "oops" := by
  constructor
  · exact (execute_command_result_by_exit_status _ UltraMCPExecutor.new
      "local-chat" ["TEXT=hello"] ⟨⟨0⟩, [104, 101, 108, 108, 111, 10], []⟩
      rfl).1 rfl
  · exact (execute_command_result_by_exit_status _ UltraMCPExecutor.new
      "local-chat" ["TEXT=hello"] ⟨⟨2⟩, [], [111, 111, 112, 115]⟩
      rfl).2 (by decide)

/-- Claim C2: for a streaming invocation whose spawn succeeds and whose
stdout reads are the error-free line stream of content `content`, the trace
is exactly the newline-split lines of `content` passed to the callback in
emission order, followed by the single terminal outcome; so every callback
invocation is strictly before the terminal outcome and none comes after
it. -/
theorem execute_streaming_command_callback_lines (env : SpawnSpec → StreamBehavior)
    (self : UltraMCPExecutor) (command : String) (args : List String)
    (content : String)
    (hspawn : (env (self.spawn_spec command args)).spawn_err = none)
    (hreads : (env (self.spawn_spec command args)).stdout_reads
      = (tokio_lines content).map ReadEvent.line) :
    self.execute_streaming_command env command args
      = (tokio_lines content).map Event.lineCb
        ++ [Event.terminal
              (stream_wait_result (env (self.spawn_spec command args)).wait)] := by
  rw [execute_streaming_command_spawned env self command args hspawn, hreads,
    delivered_lines_map_line]

/-- Witness for C2: a streaming run whose process prints three lines and
exits 1 with stderr "e" invokes the callback exactly three times, with the
three lines in order, strictly before the single terminal failure. -/
theorem execute_streaming_command_callback_lines_witness :
    UltraMCPExecutor.new.execute_streaming_command
        (fun _ =>
          { spawn_err := none
            stdout_reads := (tokio_lines "a\nb\nc\n").map ReadEvent.line
            wait := Except.ok ⟨⟨1⟩, [], [101]⟩ })
        "local-chat" ["TEXT=hello"]
      = [Event.lineCb "a", Event.lineCb "b", Event.lineCb "c",
         Event.terminal (Except.error "e")] := by
  exact execute_streaming_command_callback_lines _ UltraMCPExecutor.new
    "local-chat" ["TEXT=hello"] "a\nb\nc\n" rfl rfl

/-- Claim C3: for a streaming invocation whose spawn succeeds, after the
stdout stream is exhausted the process is awaited; if the wait yields exit
status zero the terminal outcome is success carrying the fixed
acknowledgement "Command completed successfully" (not the captured output),
and if it yields a non-zero status the terminal outcome is a failure
carrying the captured stderr decoded lossily. -/
theorem execute_streaming_command_terminal_by_exit_status
    (env : SpawnSpec → StreamBehavior) (self : UltraMCPExecutor)
    (command : String) (args : List String) (out : ProcessOutput)
    (hspawn : (env (self.spawn_spec command args)).spawn_err = none)
    (hwait : (env (self.spawn_spec command args)).wait = Except.ok out) :
    (out.status.code = 0 →
      self.execute_streaming_command env command args
        = (delivered_lines (env (self.spawn_spec command args)).stdout_reads).map
            Event.lineCb
          ++ [Event.terminal (Except.ok "Command completed successfully")]) ∧
    (out.status.code ≠ 0 →
      self.execute_streaming_command env command args
        = (delivered_lines (env (self.spawn_spec command args)).stdout_reads).map
            Event.lineCb
          ++ [Event.terminal (Except.error (from_utf8_lossy out.stderr))]) := by
  rw [execute_streaming_command_spawned env self command args hspawn]
  unfold stream_wait_result
  rw [hwait]
  constructor
  · intro hz
    simp [ExitStatus.success, hz]
  · intro hnz
    simp [ExitStatus.success, hnz]

/-- Witness for C3: with stdout lines ["x"] then exit 0 the trace ends in
the fixed acknowledgement (not the text "x"); with exit 3 and stderr "no"
it ends in the failure "no". -/
theorem execute_streaming_command_terminal_by_exit_status_witness :
    UltraMCPExecutor.new.execute_streaming_command
        (fun _ =>
          { spawn_err := none
            stdout_reads := [ReadEvent.line "x"]
            wait := Except.ok ⟨⟨0⟩, [120, 10], []⟩ })
        "health-check" []
      = [Event.lineCb "x",
         Event.terminal (Except.ok "Command completed successfully")] ∧
    UltraMCPExecutor.new.execute_streaming_command
        (fun _ =>
          { spawn_err := none
            stdout_reads := [ReadEvent.line "x"]
            wait := Except.ok ⟨⟨3⟩, [], [110, 111]⟩ })
        "health-check" []
      = [Event.lineCb "x", Event.terminal (Except.error "no")] := by
  constructor
  · exact (execute_streaming_command_terminal_by_exit_status _
      UltraMCPExecutor.new "health-check" [] ⟨⟨0⟩, [120, 10], []⟩ rfl rfl).1 rfl
  · exact (execute_streaming_command_terminal_by_exit_status _
      UltraMCPExecutor.new "health-check" [] ⟨⟨3⟩, [], [110, 111]⟩ rfl rfl).2
      (by decide)

/-- Claim C4: spawn failures and wait failures each fail with their own
diagnostic string, formed by a fixed diagnostic prefix (distinct between the
two failure kinds, for either operation) followed by the I/O error; a spawn
failure in a streaming invocation fails immediately, with no callback
invocation; and the spawn-failure error string carries the
"Failed to spawn" diagnostic as its prefix. -/
theorem executor_failure_diagnostics :
    (∀ (env : SpawnSpec → ProcBehavior) (self : UltraMCPExecutor)
        (command : String) (args : List String) (e : String),
      env (self.spawn_spec command args) = ProcBehavior.spawnFailure e →
      self.execute_command env command args
        = Except.error ("Failed to spawn command: " ++ e)) ∧
    (∀ (env : SpawnSpec → ProcBehavior) (self : UltraMCPExecutor)
        (command : String) (args : List String) (e : String),
      env (self.spawn_spec command args) = ProcBehavior.waitFailure e →
      self.execute_command env command args
        = Except.error ("Failed to execute command: " ++ e)) ∧
    (∀ (env : SpawnSpec → StreamBehavior) (self : UltraMCPExecutor)
        (command : String) (args : List String) (e : String),
      (env (self.spawn_spec command args)).spawn_err = some e →
      self.execute_streaming_command env command args
        = [Event.terminal
            (Except.error ("Failed to spawn streaming command: " ++ e))]) ∧
    (∀ (env : SpawnSpec → StreamBehavior) (self : UltraMCPExecutor)
        (command : String) (args : List String) (e : String),
      (env (self.spawn_spec command args)).spawn_err = none →
      (env (self.spawn_spec command args)).wait = Except.error e →
      self.execute_streaming_command env command args
        = (delivered_lines (env (self.spawn_spec command args)).stdout_reads).map
            Event.lineCb
          ++ [Event.terminal
                (Except.error ("Failed to complete streaming command: " ++ e))]) ∧
    (∀ e1 e2 : String,
      ("Failed to spawn command: " ++ e1) ≠ ("Failed to execute command: " ++ e2)) ∧
    (∀ e1 e2 : String,
      ("Failed to spawn streaming command: " ++ e1)
        ≠ ("Failed to complete streaming command: " ++ e2)) ∧
    (∀ e : String, ∃ rest : String,
      ("Failed to spawn command: " ++ e) = "Failed to spawn" ++ rest) := by
  refine ⟨?_, ?_, ?_, ?_, ?_, ?_, fun e => ⟨" command: " ++ e, rfl⟩⟩
  · intro env self command args e h
    unfold UltraMCPExecutor.execute_command
    rw [h]
  · intro env self command args e h
    unfold UltraMCPExecutor.execute_command
    rw [h]
  · intro env self command args e h
    unfold UltraMCPExecutor.execute_streaming_command
    rw [h]
  · intro env self command args e hspawn hwait
    rw [execute_streaming_command_spawned env self command args hspawn]
    unfold stream_wait_result
    rw [hwait]
  · intro e1 e2 h
    have hd := congrArg String.data h
    rw [String.data_append, String.data_append] at hd
    have h1 : ("Failed to spawn command: ").data
        = ("Failed to s").data ++ ("pawn command: ").data := by decide
    have h2 : ("Failed to execute command: ").data
        = ("Failed to e").data ++ ("xecute command: ").data := by decide
    rw [h1, h2, List.append_assoc, List.append_assoc] at hd
    have := List.append_inj_left hd (by decide)
    exact absurd this (by decide)
  · intro e1 e2 h
    have hd := congrArg String.data h
    rw [String.data_append, String.data_append] at hd
    have h1 : ("Failed to spawn streaming command: ").data
        = ("Failed to s").data ++ ("pawn streaming command: ").data := by decide
    have h2 : ("Failed to complete streaming command: ").data
        = ("Failed to c").data ++ ("omplete streaming command: ").data := by decide
    rw [h1, h2, List.append_assoc, List.append_assoc] at hd
    have := List.append_inj_left hd (by decide)
    exact absurd this (by decide)

/-- Witness for C4: the spec's concrete scenario — `make health-check` with
the external tool absent: the spawn fails and the result is the error string
"Failed to spawn command: No such file or directory (os error 2)", which
carries the "Failed to spawn" diagnostic. -/
theorem executor_failure_diagnostics_witness :
    UltraMCPExecutor.new.execute_command
        (fun _ => ProcBehavior.spawnFailure "No such file or directory (os error 2)")
        "health-check" []
      = Except.error
          "Failed to spawn command: No such file or directory (os error 2)" := by
  exact executor_failure_diagnostics.1
    (fun _ => ProcBehavior.spawnFailure "No such file or directory (os error 2)")
    UltraMCPExecutor.new "health-check" [] "No such file or directory (os error 2)"
    rfl

/-- Claim C5: in a streaming invocation whose spawn succeeded, whatever
point the stdout stream closes at (any read-event list), line delivery stops
there but the wait step still runs: the trace still ends with exactly one
terminal outcome, and that outcome is determined by the wait result and exit
status (fixed acknowledgement on exit zero, stderr text otherwise). -/
theorem execute_streaming_command_wait_proceeds (env : SpawnSpec → StreamBehavior)
    (self : UltraMCPExecutor) (command : String) (args : List String)
    (hspawn : (env (self.spawn_spec command args)).spawn_err = none) :
    (self.execute_streaming_command env command args
      = (delivered_lines (env (self.spawn_spec command args)).stdout_reads).map
          Event.lineCb
        ++ [Event.terminal
              (stream_wait_result (env (self.spawn_spec command args)).wait)]) ∧
    (∀ out : ProcessOutput,
      (env (self.spawn_spec command args)).wait = Except.ok out →
      stream_wait_result (env (self.spawn_spec command args)).wait
        = if out.status.success then Except.ok "Command completed successfully"
          else Except.error (from_utf8_lossy out.stderr)) := by
  constructor
  · exact execute_streaming_command_spawned env self command args hspawn
  · intro out hwait
    unfold stream_wait_result
    rw [hwait]

/-- Witness for C5: the process writes one line, closes stdout, keeps
running, and exits 2 after writing "late" to stderr; the wait step still
produces the terminal failure "late" after the single delivered line. -/
theorem execute_streaming_command_wait_proceeds_witness :
    UltraMCPExecutor.new.execute_streaming_command
        (fun _ =>
          { spawn_err := none
            stdout_reads := [ReadEvent.line "partial"]
            wait := Except.ok ⟨⟨2⟩, [], [108, 97, 116, 101]⟩ })
        "local-chat" []
      = [Event.lineCb "partial", Event.terminal (Except.error "late")] := by
  exact (execute_streaming_command_wait_proceeds
    (fun _ =>
      { spawn_err := none
        stdout_reads := [ReadEvent.line "partial"]
        wait := Except.ok ⟨⟨2⟩, [], [108, 97, 116, 101]⟩ })
    UltraMCPExecutor.new "local-chat" [] rfl).1

/-- Claim C6: run-to-completion is deterministic in the external program's
observables — two invocations with the same (command, args) whose processes
complete with the same exit status, stdout bytes and stderr bytes yield
identical results, whatever else differs between the two environments. -/
theorem execute_command_deterministic (env1 env2 : SpawnSpec → ProcBehavior)
    (self : UltraMCPExecutor) (command : String) (args : List String)
    (out1 out2 : ProcessOutput)
    (h1 : env1 (self.spawn_spec command args) = ProcBehavior.completed out1)
    (h2 : env2 (self.spawn_spec command args) = ProcBehavior.completed out2)
    (hstatus : out1.status = out2.status)
    (hstdout : out1.stdout = out2.stdout)
    (hstderr : out1.stderr = out2.stderr) :
    self.execute_command env1 command args
      = self.execute_command env2 command args := by
  have hout : out1 = out2 := by
    cases out1
    cases out2
    simp_all
  subst hout
  rw [execute_command_completed env1 self command args out1 h1,
    execute_command_completed env2 self command args out1 h2]

/-- Witness for C6: two syntactically different environments whose processes
have identical observables give identical results. -/
theorem execute_command_deterministic_witness :
    UltraMCPExecutor.new.execute_command
        (fun _ => ProcBehavior.completed ⟨⟨0⟩, [104, 105], []⟩)
        "local-chat" ["TEXT=hi"]
      = UltraMCPExecutor.new.execute_command
          (fun _ => ProcBehavior.completed ⟨⟨0⟩, [104] ++ [105], [] ++ []⟩)
          "local-chat" ["TEXT=hi"] := by
  exact execute_command_deterministic
    (fun _ => ProcBehavior.completed ⟨⟨0⟩, [104, 105], []⟩)
    (fun _ => ProcBehavior.completed ⟨⟨0⟩, [104] ++ [105], [] ++ []⟩)
    UltraMCPExecutor.new "local-chat" ["TEXT=hi"]
    ⟨⟨0⟩, [104, 105], []⟩ ⟨⟨0⟩, [104] ++ [105], [] ++ []⟩
    rfl rfl rfl rfl rfl

/-- Claim C7: the executor's only state is the `base_path` string —
executors with equal `base_path` are equal — it is set to "/root/ultramcp"
at construction, every operation reads it as the spawn working directory,
and both operations depend on the executor only through `base_path` (being
pure functions, they leave it and everything else unchanged). -/
theorem executor_state_is_fixed_base_path :
    (∀ a b : UltraMCPExecutor, a.base_path = b.base_path → a = b) ∧
    UltraMCPExecutor.new.base_path = "/root/ultramcp" ∧
    init_ultramcp_commands = UltraMCPExecutor.new ∧
    (∀ (self : UltraMCPExecutor) (command : String) (args : List String),
      (self.spawn_spec command args).current_dir = self.base_path) ∧
    (∀ (env : SpawnSpec → ProcBehavior) (self : UltraMCPExecutor)
        (command : String) (args : List String),
      self.execute_command env command args
        = (UltraMCPExecutor.mk self.base_path).execute_command env command args) ∧
    (∀ (env : SpawnSpec → StreamBehavior) (self : UltraMCPExecutor)
        (command : String) (args : List String),
      self.execute_streaming_command env command args
        = (UltraMCPExecutor.mk self.base_path).execute_streaming_command
            env command args) := by
  refine ⟨?_, rfl, rfl, fun self command args => rfl,
    fun env self command args => rfl, fun env self command args => rfl⟩
  intro a b h
  cases a
  cases b
  simpa using h

/-- Witness for C7: an executor built directly from the path
"/root/ultramcp" is the constructed executor, whose base path is that
string. -/
theorem executor_state_is_fixed_base_path_witness :
    UltraMCPExecutor.mk "/root/ultramcp" = UltraMCPExecutor.new ∧
    UltraMCPExecutor.new.base_path = "/root/ultramcp" := by
  exact ⟨executor_state_is_fixed_base_path.1
      (UltraMCPExecutor.mk "/root/ultramcp") UltraMCPExecutor.new rfl,
    executor_state_is_fixed_base_path.2.1⟩

/-- Claim C9: a read error on the child's stdout is swallowed
(`unwrap_or(None)` turns it into end-of-stream): the lines delivered are
exactly those before the first read error, no event records the read error
itself, and the terminal outcome is still the one determined by the wait
result and exit status. -/
theorem execute_streaming_command_read_error_swallowed
    (env : SpawnSpec → StreamBehavior) (self : UltraMCPExecutor)
    (command : String) (args : List String)
    (pre : List String) (suf : List ReadEvent)
    (hspawn : (env (self.spawn_spec command args)).spawn_err = none)
    (hreads : (env (self.spawn_spec command args)).stdout_reads
      = pre.map ReadEvent.line ++ ReadEvent.readError :: suf) :
    self.execute_streaming_command env command args
      = pre.map Event.lineCb
        ++ [Event.terminal
              (stream_wait_result (env (self.spawn_spec command args)).wait)] := by
  rw [execute_streaming_command_spawned env self command args hspawn, hreads,
    delivered_lines_before_error]

/-- Witness for C9: a stream that yields "a", then a read error, then would
have yielded "b", against a process that exits 0: only "a" is delivered, no
error is surfaced, and the terminal outcome is the success
acknowledgement. -/
theorem execute_streaming_command_read_error_swallowed_witness :
    UltraMCPExecutor.new.execute_streaming_command
        (fun _ =>
          { spawn_err := none
            stdout_reads := [ReadEvent.line "a", ReadEvent.readError,
              ReadEvent.line "b"]
            wait := Except.ok ⟨⟨0⟩, [], []⟩ })
        "local-chat" []
      = [Event.lineCb "a",
         Event.terminal (Except.ok "Command completed successfully")] := by
  exact execute_streaming_command_read_error_swallowed
    (fun _ =>
      { spawn_err := none
        stdout_reads := [ReadEvent.line "a", ReadEvent.readError,
          ReadEvent.line "b"]
        wait := Except.ok ⟨⟨0⟩, [], []⟩ })
    UltraMCPExecutor.new "local-chat" [] ["a"] [ReadEvent.line "b"] rfl rfl

/-- Claim C8: each of the four helper functions ignores its input string —
its value on any input equals its value on the empty string — and always
returns success (a fixed constant), never an error. -/
theorem helper_functions_constant :
    (∀ s : String,
      parse_local_models_output s = parse_local_models_output ""
        ∧ (parse_local_models_output s).isOk = true) ∧
    (∀ s : String,
      parse_system_metrics s = parse_system_metrics ""
        ∧ (parse_system_metrics s).isOk = true) ∧
    (∀ s : String,
      parse_health_output s = parse_health_output ""
        ∧ (parse_health_output s).isOk = true) ∧
    (∀ s : String,
      generate_cost_analytics s = generate_cost_analytics ""
        ∧ (generate_cost_analytics s).isOk = true) := by
  exact ⟨fun s => ⟨rfl, rfl⟩, fun s => ⟨rfl, rfl⟩, fun s => ⟨rfl, rfl⟩,
    fun s => ⟨rfl, rfl⟩⟩

/-- Witness for C8: on the concrete input "any output text", every helper
returns success with the same value as on the empty input. -/
theorem helper_functions_constant_witness :
    (parse_local_models_output "any output text" = parse_local_models_output ""
      ∧ (parse_local_models_output "any output text").isOk = true) ∧
    (parse_system_metrics "any output text" = parse_system_metrics ""
      ∧ (parse_system_metrics "any output text").isOk = true) ∧
    (parse_health_output "any output text" = parse_health_output ""
      ∧ (parse_health_output "any output text").isOk = true) ∧
    (generate_cost_analytics "any output text" = generate_cost_analytics ""
      ∧ (generate_cost_analytics "any output text").isOk = true) := by
  exact ⟨helper_functions_constant.1 "any output text",
    helper_functions_constant.2.1 "any output text",
    helper_functions_constant.2.2.1 "any output text",
    helper_functions_constant.2.2.2 "any output text"⟩

/-- Claim C10: `optimize_costs` performs no executor invocation at all, maps
each of the three known optimization types to its fixed acknowledgement
string, fails with "Unknown optimization type" on every other input, and
succeeds exactly on the three known types. -/
theorem optimize_costs_spec (t : String) :
    (optimize_costs t).2 = [] ∧
    optimize_costs "prefer_local"
      = (Except.ok "Local model preference enabled", []) ∧
    optimize_costs "batch_requests"
      = (Except.ok "Request batching enabled", []) ∧
    optimize_costs "cache_results"
      = (Except.ok "Result caching enabled", []) ∧
    (t ≠ "prefer_local" → t ≠ "batch_requests" → t ≠ "cache_results" →
      (optimize_costs t).1 = Except.error "Unknown optimization type") ∧
    ((optimize_costs t).1.isOk = true ↔
      t = "prefer_local" ∨ t = "batch_requests" ∨ t = "cache_results") := by
  have hdefault : t ≠ "prefer_local" → t ≠ "batch_requests" →
      t ≠ "cache_results" →
      (optimize_costs t).1 = Except.error "Unknown optimization type" := by
    intro h1 h2 h3
    unfold optimize_costs
    split
    · exact absurd rfl h1
    · exact absurd rfl h2
    · exact absurd rfl h3
    · rfl
  refine ⟨rfl, rfl, rfl, rfl, hdefault, ?_, ?_⟩
  · intro hok
    by_contra hn
    push_neg at hn
    rw [hdefault hn.1 hn.2.1 hn.2.2] at hok
    simp [Except.isOk, Except.toBool] at hok
  · rintro (rfl | rfl | rfl) <;> rfl

/-- Witness for C10: "prefer_local" yields its fixed acknowledgement with no
executor invocation, and the unknown type "bogus" yields the fixed error. -/
theorem optimize_costs_spec_witness :
    optimize_costs "prefer_local"
      = (Except.ok "Local model preference enabled", []) ∧
    (optimize_costs "bogus").1 = Except.error "Unknown optimization type" ∧
    (optimize_costs "bogus").2 = [] := by
  exact ⟨(optimize_costs_spec "prefer_local").2.1,
    (optimize_costs_spec "bogus").2.2.2.2.1 (by decide) (by decide) (by decide),
    (optimize_costs_spec "bogus").1⟩
